import Mathlib

/-!
# Verification of the salty-ocean-api refresh/caching core

Shallow embedding of the JavaScript source of `salty-ocean-api` into Lean 4,
together with theorems settling the frozen claims C1..C10 about the
natural-language specification of the repository.

Numbers: JavaScript numeric values (coordinates, wave heights, TTL seconds)
are modelled as rationals (`ℚ`) or integers; machine instants as integer
seconds.  Cache keys built by string interpolation of numbers are modelled
by the interpolated components themselves (JavaScript renders two numbers
to the same string iff they are the same number, so key equality coincides
with component equality).

Each embedded definition names the source file and function it translates.
-/

namespace Salty

/-! ## Wave model configuration (src: config/waveModelConfig.js, `CONFIG`) -/

/-- One axis of a model grid (`CONFIG.models.*.grid.lat` / `.lon`).
`stop` embeds the JSON field `end` (a Lean keyword). -/
structure GridAxis where
  size : ℕ
  start : ℚ
  stop : ℚ
  resolution : ℚ
  deriving Repr, DecidableEq

/-- A regional model's grid (`CONFIG.models.*.grid`). -/
structure Grid where
  lat : GridAxis
  lon : GridAxis
  deriving Repr, DecidableEq

/-- A regional wave model (`CONFIG.models.*`). -/
structure Model where
  id : String
  name : String
  grid : Grid
  deriving Repr, DecidableEq

/-- `CONFIG.models.pacific` — GFSwave US West Coast 0p16 grid. -/
def pacific : Model :=
  { id := "pacific", name := "wcoast.0p16",
    grid := { lat := { size := 151, start := 25.0, stop := 50.00005, resolution := 0.166667 },
              lon := { size := 241, start := 210.0, stop := 250.00008, resolution := 0.166667 } } }

/-- `CONFIG.models.atlantic` — GFSwave Atlantic Ocean 0p16 grid. -/
def atlantic : Model :=
  { id := "atlantic", name := "atlocn.0p16",
    grid := { lat := { size := 331, start := 0.0, stop := 55.00011, resolution := 0.166667 },
              lon := { size := 301, start := 260.0, stop := 310.0001, resolution := 0.166667 } } }

/-- `CONFIG.models.gulf` — GFSwave Gulf of Mexico 0p16 grid. -/
def gulf : Model :=
  { id := "gulf", name := "gulfmex.0p16",
    grid := { lat := { size := 151, start := 15.0, stop := 40.00011, resolution := 0.166667 },
              lon := { size := 181, start := 260.0, stop := 290.0001, resolution := 0.166667 } } }

/-- `Object.entries(CONFIG.models)` in declaration order (pacific, atlantic, gulf). -/
def models : List Model := [pacific, atlantic, gulf]

/-! ## Longitude normalization and grid routing (src: services/waveModelService.js) -/

/-- The longitude normalization `lon < 0 ? lon + 360 : lon` used (identically) by
`findModelForLocation`, `getGridLocation`, `getStationData` and
`isStationInModelBounds`. -/
def normalizeLon (lon : ℚ) : ℚ := if lon < 0 then lon + 360 else lon

/-- The closed-rectangle containment test of `findModelForLocation`
(and of `isStationInModelBounds` in buoyPrefetchService.js):
`lat >= m.grid.lat.start && lat <= m.grid.lat.end && normalizedLon >= m.grid.lon.start
 && normalizedLon <= m.grid.lon.end`. -/
def inModelBounds (lat lon : ℚ) (m : Model) : Bool :=
  let normalizedLon := normalizeLon lon
  decide (m.grid.lat.start ≤ lat) && decide (lat ≤ m.grid.lat.stop) &&
  decide (m.grid.lon.start ≤ normalizedLon) && decide (normalizedLon ≤ m.grid.lon.stop)

/-- `findModelForLocation(lat, lon)` (waveModelService.js lines 13–29): scan the three
models in declaration order and return the first whose closed rectangle contains the
point; `none` embeds the thrown "outside all model bounds" error. -/
def findModelForLocation (lat lon : ℚ) : Option Model :=
  models.find? (inModelBounds lat lon)

/-- `isStationInModelBounds` (buoyPrefetchService.js lines 14–38), for a station that
has coordinates: true iff some model's rectangle contains the point. -/
def isStationInModelBounds (lat lon : ℚ) : Bool :=
  models.any (inModelBounds lat lon)

/-! ## Cache keys (src: utils/cacheManager.js `getCacheConfig`,
services/offshoreStationService.js, services/buoyPrefetchService.js)

`getCacheConfig(type, identifier)` returns key `"${keyPrefix}_${identifier}"` with
`keyPrefix = "ndbc_buoy"` for `buoyData` and `"wave_model"` for `waveModel`.
The `waveModel` identifier is a string interpolation of two numbers,
`"${a}_${b}"`; it is modelled by the pair `(a, b)`. -/

/-- A cache key: the `ndbc_buoy_{stationId}` family or the
`wave_model_{a}_{b}` family. -/
inductive CacheKey where
  | buoy (stationId : String)
  | waveModel (a b : ℚ)
  deriving Repr, DecidableEq

/-- The forecast cache key built by the Station Aggregator
(offshoreStationService.js lines 58–66): identifier `"${lat}_${normalizedLon}"`
with `normalizedLon = lon < 0 ? lon + 360 : lon`. -/
def aggregatorForecastKey (lat lon : ℚ) : CacheKey :=
  CacheKey.waveModel lat (normalizeLon lon)

/-- The forecast cache key built by the Bulk Prefetcher
(buoyPrefetchService.js lines 66–71): identifier
`"${station.location.coordinates[1]}_${station.location.coordinates[0]}"`,
i.e. the RAW latitude and longitude, with no normalization. -/
def prefetchForecastKey (lat lon : ℚ) : CacheKey :=
  CacheKey.waveModel lat lon

/-! ## Clock & cadence functions (src: utils/cacheManager.js, services/ndbcService.js,
services/waveModelService.js)

Instants are decomposed the way the JavaScript reads them from `Date`:
`h` = hour of day, `m` = minute, `s` = second.  TTLs are integer seconds. -/

/-- `NDBC_UPDATE_MINUTES.find((min) => currentMinute < min - BUFFER_TIME / 60) || 26`
from `getTimeToNextNDBCUpdate` (cacheManager.js): the next NDBC update minute with a
5-minute skip-ahead buffer, over the list `[26, 56]`, defaulting to `26`. -/
def nextNDBCUpdateMinute (m : ℤ) : ℤ :=
  if m < 26 - 5 then 26 else if m < 56 - 5 then 56 else 26

/-- `getTimeToNextNDBCUpdate()` (cacheManager.js lines 67–92): seconds until the next
NDBC update minute (with the 5-minute skip-ahead), wrapping into the next hour when
the chosen minute is not ahead of the current one. -/
def getTimeToNextNDBCUpdate (m s : ℤ) : ℤ :=
  let nextUpdateMinute := nextNDBCUpdateMinute m
  if m < nextUpdateMinute then (nextUpdateMinute - m) * 60 - s
  else (60 - m + nextUpdateMinute) * 60 - s

/-- `getTimeToNextUpdate()` (ndbcService.js lines 25–48): seconds to the next update
minute of `[26, 56]` (no skip-ahead buffer in the find), plus a 60-second buffer. -/
def getTimeToNextUpdate (m s : ℤ) : ℤ :=
  let nextUpdateMinute : ℤ := if m < 26 then 26 else if m < 56 then 56 else 26
  (if m < nextUpdateMinute then (nextUpdateMinute - m) * 60 - s
   else (60 - m + nextUpdateMinute) * 60 - s) + 60

/-- The `find` of `getTimeToNextModelRun` (cacheManager.js lines 104–117): the
`availableAt` (= cycle hour + 5) of the first cycle of `[00, 06, 12, 18]` whose
availability, less a 5-minute buffer, is still ahead of `currentHour + currentMinute/60`;
defaulting to tomorrow's 00Z (`availableAt = 24 + 5`). -/
def nextModelRunAvailableAt (h m : ℤ) : ℤ :=
  let adjustedHour : ℚ := (h : ℚ) + (m : ℚ) / 60
  if adjustedHour < 5 - 1 / 12 then 5
  else if adjustedHour < 11 - 1 / 12 then 11
  else if adjustedHour < 17 - 1 / 12 then 17
  else if adjustedHour < 23 - 1 / 12 then 23
  else 29

/-- `getTimeToNextModelRun()` (cacheManager.js lines 97–135): seconds until the next
model run's availability instant. -/
def getTimeToNextModelRun (h m s : ℤ) : ℤ :=
  let availableAt := nextModelRunAvailableAt h m
  if h < availableAt then (availableAt - h) * 3600 - m * 60 - s
  else (24 - h + availableAt) * 3600 - m * 60 - s

/-- The TTL `getStationData` passes when caching the composed envelope
(offshoreStationService.js line 198): `buoyConfig.ttl`, which
`getCacheConfig("buoyData", stationId)` computes as `getTimeToNextNDBCUpdate()`. -/
def envelopeCacheTTL (m s : ℤ) : ℤ := getTimeToNextNDBCUpdate m s

/-! ## Latest available model run (src: services/waveModelService.js
`getAvailableModelRun`, lines 44–68)

`now` is modelled as integer seconds since the epoch (UTC);
`currentHour = now.getUTCHours()` becomes `now % 86400 / 3600` and the calendar
date becomes the day index `now / 86400`. -/

/-- The UTC hour of day of an epoch-second instant. -/
def currentHourUTC (now : ℕ) : ℕ := now % 86400 / 3600

/-- `CONFIG.modelRuns.hours.map(...).reverse().find((run) => currentHour >= run.availableAt)`:
the cycle hours `[00, 06, 12, 18]` reversed, selecting the first whose
`availableAt = hour + CONFIG.modelRuns.availableAfter[hour] = hour + 5` satisfies
`currentHour ≥ availableAt`. -/
def availableRunHour (currentHour : ℕ) : Option ℕ :=
  [18, 12, 6, 0].find? (fun hr => decide (hr + 5 ≤ currentHour))

/-- `getAvailableModelRun()` (waveModelService.js lines 44–68) as
`(day index, cycle hour)`: today's latest available cycle, or yesterday's 18Z when
no cycle of today is available yet. -/
def getAvailableModelRun (now : ℕ) : ℕ × ℕ :=
  match availableRunHour (currentHourUTC now) with
  | some hr => (now / 86400, hr)
  | none => (now / 86400 - 1, 18)

/-- The availability instant of a cycle, per the spec's §4.1/glossary: the cycle's
nominal hour plus the 5-hour latency, on the cycle's calendar day. -/
def cycleAvailabilityInstant (run : ℕ × ℕ) : ℕ :=
  run.1 * 86400 + (run.2 + 5) * 3600

/-! ## Observations and trend analysis (src: services/ndbcService.js)

A parsed observation row (`parseDataLine`, lines 319–350).  Numeric fields are
`Option ℚ`: the sentinel "MM" parses to `null`, modelled `none`.  Timestamps are
modelled as epoch seconds.  The prose fields (`summary`, Beaufort descriptions,
`marinerSummary`) are presentation strings, out of the spec's core (§9), and are
not embedded. -/

/-- `parseDataLine` wind block. -/
structure WindObs where
  direction : Option ℚ
  speed : Option ℚ
  gust : Option ℚ
  deriving Repr, DecidableEq

/-- `parseDataLine` waves block. -/
structure WaveObs where
  height : Option ℚ
  dominantPeriod : Option ℚ
  averagePeriod : Option ℚ
  direction : Option ℚ
  deriving Repr, DecidableEq

/-- `parseDataLine` conditions block. -/
structure CondObs where
  pressure : Option ℚ
  airTemp : Option ℚ
  waterTemp : Option ℚ
  dewPoint : Option ℚ
  deriving Repr, DecidableEq

/-- One parsed meteorological observation row. -/
structure MetObs where
  time : ℕ
  wind : WindObs
  waves : WaveObs
  conditions : CondObs
  deriving Repr, DecidableEq

/-- The wave-height / wave-period trend record built by `analyzeTrends`
(`waveHeight` and `wavePeriod` result fields).  `change` is `Option ℚ` because the
JavaScript value can be `null`. -/
structure TrendEntry where
  trend : String
  change : Option ℚ
  current : ℚ
  lastValidReading : ℕ
  deriving Repr, DecidableEq

/-- The wind trend record built by `analyzeTrends` (Beaufort prose and the
string-formatted `gustFactor` are not embedded). -/
structure WindTrendEntry where
  trend : String
  change : ℚ
  current : Option ℚ
  deriving Repr, DecidableEq

/-- The structured result of `analyzeTrends` (the `summary` prose is not embedded). -/
structure Trends where
  waveHeight : Option TrendEntry
  wavePeriod : Option TrendEntry
  wind : WindTrendEntry
  timeSpanStart : ℕ
  timeSpanEnd : ℕ
  lastValidWaveReading : Option ℕ
  deriving Repr, DecidableEq

/-- The `find` predicate of `analyzeTrends`: `p.waves.height !== null`. -/
def validWave (p : MetObs) : Bool := p.waves.height.isSome

/-- `!waveHeightChange ? "steady" : Math.abs(waveHeightChange) < 0.5 ? "steady"
  : waveHeightChange > 0 ? "building" : "dropping"` — JavaScript falsiness makes a
`null` or `0` change "steady". -/
def waveTrendString (change : Option ℚ) : String :=
  match change with
  | none => "steady"
  | some c => if c = 0 then "steady"
      else if |c| < 1/2 then "steady"
      else if 0 < c then "building" else "dropping"

/-- `!periodChange ? "steady" : Math.abs(periodChange) < 1 ? "steady"
  : periodChange > 0 ? "lengthening" : "shortening"`. -/
def periodTrendString (change : Option ℚ) : String :=
  match change with
  | none => "steady"
  | some c => if c = 0 then "steady"
      else if |c| < 1 then "steady"
      else if 0 < c then "lengthening" else "shortening"

/-- `NDBCService.analyzeTrends(observations)` (ndbcService.js lines 195–317).
The list is ordered most-recent-first; `periods = observations.slice(0, 8)`;
returns `null` when fewer than two rows are in the window.  JavaScript `null`
numeric coercion (`x - null = x - 0`) is modelled by `Option.getD 0`. -/
def analyzeTrends (observations : List MetObs) : Option Trends :=
  match observations.take 8 with
  | [] => none
  | [_] => none
  | lastObs :: next :: rest =>
    let periods := lastObs :: next :: rest
    let firstObs := periods.getLast (List.cons_ne_nil _ _)
    let lastValidWaveData := periods.find? validWave
    let firstValidWaveData := periods.reverse.find? validWave
    let waveHeightChange : Option ℚ :=
      match lastValidWaveData, firstValidWaveData with
      | some l, some f => some (l.waves.height.getD 0 - f.waves.height.getD 0)
      | _, _ => none
    let periodChange : Option ℚ :=
      match lastValidWaveData, firstValidWaveData with
      | some l, some f => some (l.waves.dominantPeriod.getD 0 - f.waves.dominantPeriod.getD 0)
      | _, _ => none
    let windSpeedChange : ℚ := lastObs.wind.speed.getD 0 - firstObs.wind.speed.getD 0
    let windTrend : String :=
      if |windSpeedChange| < 2 then "steady"
      else if 0 < windSpeedChange then "increasing" else "decreasing"
    some {
      waveHeight :=
        match lastValidWaveData with
        | some l => some { trend := waveTrendString waveHeightChange,
                           change := waveHeightChange,
                           current := l.waves.height.getD 0,
                           lastValidReading := l.time }
        | none => none,
      wavePeriod :=
        match lastValidWaveData with
        | some l =>
          match l.waves.dominantPeriod with
          | some p =>
            if p = 0 then none
            else some { trend := periodTrendString periodChange,
                        change := periodChange,
                        current := p,
                        lastValidReading := l.time }
          | none => none
        | none => none,
      wind := { trend := windTrend, change := windSpeedChange, current := lastObs.wind.speed },
      timeSpanStart := firstObs.time,
      timeSpanEnd := lastObs.time,
      lastValidWaveReading := lastValidWaveData.map (·.time) }

/-! ## JavaScript errors (src: middlewares/errorHandler.js `AppError`) -/

/-- A JavaScript `Error` as the core consumes it: `message`, `name`, and the
`statusCode` property that `AppError` adds (absent on plain/axios errors). -/
structure JsError where
  message : String
  name : String
  statusCode : Option ℤ
  deriving Repr, DecidableEq

/-- `new AppError(statusCode, message)`. -/
def appError (statusCode : ℤ) (message : String) : JsError :=
  { message := message, name := "Error", statusCode := some statusCode }

/-- The plain `Error` thrown by `findModelForLocation` for out-of-grid coordinates
(waveModelService.js line 25); its interpolated coordinate text is not embedded. -/
def outOfBoundsError : JsError :=
  { message := "is outside all model bounds", name := "Error", statusCode := none }

/-! ## Forecast data (src: services/waveModelService.js `getPointForecast`) -/

/-- A swell partition or wind-wave component of a forecast period
(lines 170–199): present only when its height sample is truthy. -/
structure PartComponent where
  height : ℚ
  period : Option ℚ
  direction : Option ℚ
  deriving Repr, DecidableEq

/-- The `waves` block of a forecast period (lines 166–200); `height` is always
present (periods are emitted only when `htsgwsfc[i]` is defined). -/
structure FPWaves where
  height : ℚ
  period : Option ℚ
  direction : Option ℚ
  windWave : Option PartComponent
  swells : List PartComponent
  deriving Repr, DecidableEq

/-- The `wind` block of a forecast period (lines 201–206). -/
structure FPWind where
  speed : Option ℚ
  direction : Option ℚ
  u : Option ℚ
  v : Option ℚ
  deriving Repr, DecidableEq

/-- One forecast period (lines 164–207); `time` is modelled in hours since the
epoch (the source builds `modelRun.date + i*3h`). -/
structure ForecastPeriod where
  time : ℕ
  waves : FPWaves
  wind : FPWind
  deriving Repr, DecidableEq

/-- `metadata` of `getPointForecast`'s result (lines 212–216); the `generated`
wall-clock timestamp is not embedded. -/
structure ModelMetadata where
  model : String
  location : ℚ × ℚ
  deriving Repr, DecidableEq

/-- The result of `getPointForecast` (lines 210–217). -/
structure ModelData where
  forecasts : List ForecastPeriod
  metadata : ModelMetadata
  deriving Repr, DecidableEq

/-- `getPointForecast(lat, lon)` (waveModelService.js lines 99–222), with the single
`axios.get` + `parseModelData` + period assembly (lines 143–208) abstracted as the
`http` outcome: either the assembled period list or the transport/HTTP error.
Also returns the number of HTTP GETs issued.  The source performs the GET exactly
once — it has no retry loop (`CONFIG.request.maxRetries` and `retryDelay` are never
read) — and issues no GET when the grid router rejects the point. -/
def getPointForecast (lat lon : ℚ) (http : Except JsError (List ForecastPeriod)) :
    Except JsError ModelData × ℕ :=
  match findModelForLocation lat lon with
  | none => (.error outOfBoundsError, 0)
  | some model =>
    match http with
    | .error e => (.error e, 1)
    | .ok forecasts =>
      (.ok { forecasts := forecasts,
             metadata := { model := model.id, location := (lat, lon) } }, 1)

/-! ## Spectral data and combined buoy data (src: services/ndbcService.js) -/

/-- A swell / wind-wave component of the spectral record (`fetchSpectralData`
lines 388–403); `direction` is the raw compass string. -/
structure SpectralComponent where
  height : Option ℚ
  period : Option ℚ
  direction : Option String
  deriving Repr, DecidableEq

/-- The `waves` block of the parsed spectral record (lines 386–408). -/
structure SpectralWaves where
  height : Option ℚ
  swell : SpectralComponent
  windWave : SpectralComponent
  steepness : Option String
  deriving Repr, DecidableEq

/-- The parsed spectral record (`fetchSpectralData`, lines 376–409). -/
structure SpectralData where
  time : ℕ
  waves : SpectralWaves
  deriving Repr, DecidableEq

/-- The `spectral` block of `combinedData.waves` (`fetchBuoyData` lines 516–522). -/
structure SpectralInfo where
  steepness : Option String
  swell : SpectralComponent
  windWave : SpectralComponent
  deriving Repr, DecidableEq

/-- `combinedData.waves` (`fetchBuoyData` lines 511–523). -/
structure CombinedWaves where
  height : Option ℚ
  dominantPeriod : Option ℚ
  averagePeriod : Option ℚ
  direction : Option ℚ
  spectral : Option SpectralInfo
  deriving Repr, DecidableEq

/-- `combinedData` (`fetchBuoyData` lines 508–527); `marinerSummary` prose is not
embedded. -/
structure ObsData where
  time : ℕ
  wind : WindObs
  waves : CombinedWaves
  conditions : CondObs
  trends : Option Trends
  deriving Repr, DecidableEq

/-! ## Envelope (src: services/offshoreStationService.js lines 146–195) -/

/-- A period of a response-forecast day (lines 93–110). -/
structure DayPeriodWind where
  speed : ℚ
  direction : Option ℚ
  deriving Repr, DecidableEq

/-- The waves block of a response-forecast period (lines 101–109). -/
structure DayPeriodWaves where
  height : ℚ
  period : Option ℚ
  direction : Option ℚ
  windWave : Option PartComponent
  swells : List PartComponent
  deriving Repr, DecidableEq

/-- One period entry of a response-forecast day (lines 93–110): JavaScript
falsiness nulls the `wind` / `waves` blocks when speed / height are 0 or null. -/
structure DayPeriod where
  time : ℕ
  wind : Option DayPeriodWind
  waves : Option DayPeriodWaves
  deriving Repr, DecidableEq

/-- One day group of the response forecast (lines 116–119). -/
structure ForecastDay where
  date : ℕ
  periods : List DayPeriod
  deriving Repr, DecidableEq

/-- The grouped forecast cached and returned by the aggregator (lines 114–120). -/
structure GroupedForecast where
  metadata : ModelMetadata
  days : List ForecastDay
  deriving Repr, DecidableEq

/-- The `observations.wind` block of the envelope (lines 152–159). -/
structure ObsWind where
  direction : Option ℚ
  speed : ℚ
  gust : Option ℚ
  trend : Option WindTrendEntry
  deriving Repr, DecidableEq

/-- The `observations.waves` block of the envelope (lines 160–171). -/
structure ObsWaves where
  height : ℚ
  dominantPeriod : Option ℚ
  averagePeriod : Option ℚ
  direction : Option ℚ
  trend : Option TrendEntry
  steepness : Option String
  swell : Option SpectralComponent
  windWave : Option SpectralComponent
  deriving Repr, DecidableEq

/-- The `observations.weather` block of the envelope (lines 172–177). -/
structure ObsWeather where
  pressure : Option ℚ
  airTemp : Option ℚ
  waterTemp : Option ℚ
  dewPoint : Option ℚ
  deriving Repr, DecidableEq

/-- The `observations` block of the envelope (lines 150–178). -/
structure Observations where
  time : ℕ
  wind : Option ObsWind
  waves : Option ObsWaves
  weather : ObsWeather
  deriving Repr, DecidableEq

/-- The envelope's forecast field (lines 190–195): attached as data when the
grouped forecast has at least one day, as an error stub when a forecast error was
caught, and omitted otherwise. -/
inductive ForecastField where
  | omitted
  | data (f : GroupedForecast)
  | errorStub (message : String) (type_ : String) (statusCode : ℤ)
  deriving Repr, DecidableEq

/-- The response envelope (lines 146–195); the constant `units` block and the
`summary` prose are not embedded. -/
structure Envelope where
  id : String
  name : Option String
  observations : Observations
  forecast : ForecastField
  deriving Repr, DecidableEq

/-! ## Cache store

`utils/cache.js` is not part of src/ (only its callers are).  The store itself is
modelled from the spec; the flows below are translated from their source call
sites.  The embedding is untimed: a request runs at one instant, so "fresh entry
exists" collapses to "entry present". -/

/-- A value held in the in-memory cache: buoy keys hold combined observation
data, wave-model keys hold grouped forecasts, and the aggregator's final
`getOrSet` offers the composed envelope. -/
inductive CacheValue where
  | obs (d : ObsData)
  | fcst (f : GroupedForecast)
  | env (e : Envelope)
  deriving Repr, DecidableEq

/-- One cache entry: key, value and the TTL (seconds) it was stored with. -/
structure CacheEntry where
  key : CacheKey
  value : CacheValue
  ttl : ℤ
  deriving Repr, DecidableEq

/-- The in-process cache store, keyed by `CacheKey`. -/
abbrev Cache : Type := List CacheEntry

/-- Modelled from the spec: `get(key)` of the Cache Store (§4.2) — "returns the
entry only if not expired"; in the untimed embedding, the entry if present. -/
def cacheGet (c : Cache) (k : CacheKey) : Option CacheValue :=
  (c.find? (fun e => e.key = k)).map (·.value)

/-- Modelled from the spec: the store half of `get_or_fill(key, ttl, producer)`
(§4.2) for an already-computed value — "if a fresh entry exists, return it; else
store the result with expiry now + ttl".  This is the `getOrSet(key, () => v, ttl)`
call shape used by the source. -/
def cacheGetOrSet (c : Cache) (k : CacheKey) (v : CacheValue) (ttl : ℤ) : CacheValue × Cache :=
  match cacheGet c k with
  | some old => (old, c)
  | none => (v, ⟨k, v, ttl⟩ :: c)

/-- Modelled from the spec: `get_or_fill(key, ttl, producer)` (§4.2) with a
fallible producer — "invoke producer, store the result, and return it; failures
from producer are propagated to all current waiters and are NOT cached". -/
def getOrFill (c : Cache) (k : CacheKey) (producer : Except JsError CacheValue) (ttl : ℤ) :
    Except JsError CacheValue × Cache :=
  match cacheGet c k with
  | some old => (.ok old, c)
  | none =>
    match producer with
    | .error e => (.error e, c)
    | .ok v => (.ok v, ⟨k, v, ttl⟩ :: c)

/-! ## Buoy fetcher (src: services/ndbcService.js `fetchMetData`, `fetchBuoyData`) -/

/-- The row filter of `fetchMetData` (line 565):
`.filter((data) => data.waves.height || data.wind.speed)` — JavaScript truthiness,
with `null` and `0` falsy. -/
def hasWaveOrWind (d : MetObs) : Bool :=
  decide (d.waves.height.getD 0 ≠ 0) || decide (d.wind.speed.getD 0 ≠ 0)

/-- `fetchMetData(buoyId)` (ndbcService.js lines 541–583).  The HTTP GET and
line-level parsing (lines 543–563) are abstracted as `parsedRows`: `none` for a
network/format failure (the source catches and returns `null`), `some rows` for
the parsed data rows, most recent first.  The source then takes the 8 most recent
rows, filters to rows with a truthy wave height or wind speed, and returns the
most recent row together with the trend analysis, or `null` when no row remains. -/
def fetchMetData (parsedRows : Option (List MetObs)) : Option (MetObs × Option Trends) :=
  match parsedRows with
  | none => none
  | some rows =>
    let recentObservations := (rows.take 8).filter hasWaveOrWind
    match recentObservations with
    | [] => none
    | currentData :: _ => some (currentData, analyzeTrends recentObservations)

/-- The upstream outcomes consumed by one `fetchBuoyData` call: the parsed
meteorological rows (or failure) and the optional parsed spectral record
(`fetchSpectralData` returns `null` on 404 or any error). -/
structure BuoyOracle where
  metRows : Option (List MetObs)
  spectral : Option SpectralData
  deriving Repr, DecidableEq

/-- `combinedData` (fetchBuoyData lines 504–527):
`waveHeight = spectralData?.waves?.height || metData.waves.height` (falsy 0 falls
back), and the spectral block is attached when the spectral record exists. -/
def mkCombinedData (metData : MetObs) (trends : Option Trends)
    (spectral : Option SpectralData) : ObsData :=
  let waveHeight : Option ℚ :=
    match spectral with
    | some sp =>
      match sp.waves.height with
      | some hgt => if hgt = 0 then metData.waves.height else some hgt
      | none => metData.waves.height
    | none => metData.waves.height
  { time := metData.time,
    wind := metData.wind,
    waves := { height := waveHeight,
               dominantPeriod := metData.waves.dominantPeriod,
               averagePeriod := metData.waves.averagePeriod,
               direction := metData.waves.direction,
               spectral := spectral.map (fun sp =>
                 { steepness := sp.waves.steepness,
                   swell := sp.waves.swell,
                   windWave := sp.waves.windWave }) },
    conditions := metData.conditions,
    trends := trends }

/-- `NDBCService.fetchBuoyData(buoyId)` (ndbcService.js lines 480–538).
First consults the cache under `ndbc_buoy_{buoyId}` (the producer-less
`getOrSet(cacheKey)` is a plain get), fetches met + spectral on a miss, returns
`null` when no meteorological data is available, and otherwise caches the
combined data with `ttl = getTimeToNextUpdate()` before returning it.
`m`, `s` are the wall-clock minute and second.  Only `.obs` values are ever
stored under buoy keys by the modelled flows; a cached value of another shape is
treated as a miss. -/
def fetchBuoyData (cache : Cache) (buoyId : String) (o : BuoyOracle) (m s : ℤ) :
    Option ObsData × Cache :=
  let cacheKey := CacheKey.buoy buoyId
  match cacheGet cache cacheKey with
  | some (.obs d) => (some d, cache)
  | _ =>
    match fetchMetData o.metRows with
    | none => (none, cache)
    | some (metData, trends) =>
      let combinedData := mkCombinedData metData trends o.spectral
      let ttl := getTimeToNextUpdate m s
      (some combinedData, (cacheGetOrSet cache cacheKey (.obs combinedData) ttl).2)

/-! ## Station aggregator (src: services/offshoreStationService.js `getStationData`) -/

/-- A station catalogue record as the aggregator consumes it
(`ndbcService.getStationById`): display name and GeoJSON `[lon, lat]`
coordinates when present. -/
structure StationMeta where
  name : Option String
  coordinates : Option (ℚ × ℚ)
  deriving Repr, DecidableEq

/-- The calendar day of a forecast period — `f.time.split("T")[0]` of the grouping
(line 89), with period times in hours since the epoch. -/
def periodDay (f : ForecastPeriod) : ℕ := f.time / 24

/-- One mapped period of the grouping (lines 93–110): the `wind` and `waves`
blocks are attached only when `f.wind?.speed` / `f.waves?.height` are truthy. -/
def mkDayPeriod (f : ForecastPeriod) : DayPeriod :=
  { time := f.time,
    wind :=
      match f.wind.speed with
      | some sp => if sp = 0 then none else some { speed := sp, direction := f.wind.direction }
      | none => none,
    waves :=
      if f.waves.height = 0 then none
      else some { height := f.waves.height, period := f.waves.period,
                  direction := f.waves.direction, windWave := f.waves.windWave,
                  swells := f.waves.swells } }

/-- The date grouping of the forecast periods (lines 88–119): one day entry per
distinct calendar day, in order of first appearance, holding that day's mapped
periods. -/
def groupForecastsByDate (fs : List ForecastPeriod) : List ForecastDay :=
  ((fs.map periodDay).dedup).map (fun d =>
    { date := d, periods := (fs.filter (fun f => periodDay f = d)).map mkDayPeriod })

/-- The upstream world consumed by one `getStationData` call: the station
catalogue record, the buoy fetcher's upstream outcomes, the forecast GET outcome,
and whether either `Promise.race` timeout fires first. -/
structure GetStationEnv where
  metadata : Option StationMeta
  buoy : BuoyOracle
  buoyTimeout : Bool
  forecastHttp : Except JsError (List ForecastPeriod)
  forecastTimeout : Bool
  deriving Repr

/-- What `getStationData` resolves with: either the raw cached value returned
directly on a hit (line 20 — the source returns whatever object is cached), or
the composed envelope. -/
inductive GetStationResult where
  | fromCache (v : CacheValue)
  | composed (e : Envelope)
  deriving Repr, DecidableEq

/-- Observable upstream effort of one `getStationData` call: invocations of
`waveModelService.getPointForecast` and HTTP GETs those invocations issued. -/
structure GSDStats where
  forecastCalls : ℕ
  forecastGets : ℕ
  deriving Repr, DecidableEq

/-- The `forecastError` stub recorded by the catch (lines 132–137):
`{ message: error.message, type: error.name, statusCode: error.statusCode || 500 }`. -/
def stubOf (e : JsError) : ForecastField :=
  .errorStub e.message e.name (e.statusCode.getD 500)

/-- The forecast block of `getStationData` (lines 52–144), for a station with
coordinates `[lon, lat]`: normalize the longitude, build the forecast cache
config, serve a cached grouped forecast, otherwise invoke
`waveModelService.getPointForecast(lat, normalizedLon)` (racing the 20 s timeout),
group and cache a non-empty result, and record any thrown error as the stub
value.  Returns (forecast, forecastError, cache, stats). -/
def forecastBlock (cache : Cache) (lat lon : ℚ) (env : GetStationEnv) (h m s : ℤ) :
    Option GroupedForecast × Option JsError × Cache × GSDStats :=
  let normalizedLon := normalizeLon lon
  let forecastKey := CacheKey.waveModel lat normalizedLon
  match cacheGet cache forecastKey with
  | some (.fcst f) => (some f, none, cache, ⟨0, 0⟩)
  | _ =>
    if env.forecastTimeout then
      (none, some (appError 504 "Forecast fetch timeout"), cache,
        ⟨1, (getPointForecast lat normalizedLon env.forecastHttp).2⟩)
    else
      match getPointForecast lat normalizedLon env.forecastHttp with
      | (.error e, gets) => (none, some e, cache, ⟨1, gets⟩)
      | (.ok modelData, gets) =>
        match modelData.forecasts with
        | [] => (none, none, cache, ⟨1, gets⟩)
        | p :: ps =>
          let forecast : GroupedForecast :=
            { metadata := modelData.metadata,
              days := groupForecastsByDate (p :: ps) }
          let ttl := getTimeToNextModelRun h m s
          (some forecast, none,
            (cacheGetOrSet cache forecastKey (.fcst forecast) ttl).2, ⟨1, gets⟩)

/-- The `observations` block of the envelope (lines 150–178), from the combined
buoy data: the `wind` and `waves` blocks are attached only when
`stationData.wind.speed` / `stationData.waves?.height` are truthy. -/
def mkObservations (stationData : ObsData) : Observations :=
  { time := stationData.time,
    wind :=
      match stationData.wind.speed with
      | some sp =>
        if sp = 0 then none
        else some { direction := stationData.wind.direction, speed := sp,
                    gust := stationData.wind.gust,
                    trend := stationData.trends.map (·.wind) }
      | none => none,
    waves :=
      match stationData.waves.height with
      | some hgt =>
        if hgt = 0 then none
        else some { height := hgt,
                    dominantPeriod := stationData.waves.dominantPeriod,
                    averagePeriod := stationData.waves.averagePeriod,
                    direction := stationData.waves.direction,
                    trend := stationData.trends.bind (·.waveHeight),
                    steepness := stationData.waves.spectral.bind (·.steepness),
                    swell := stationData.waves.spectral.map (·.swell),
                    windWave := stationData.waves.spectral.map (·.windWave) }
      | none => none,
    weather := { pressure := stationData.conditions.pressure,
                 airTemp := stationData.conditions.airTemp,
                 waterTemp := stationData.conditions.waterTemp,
                 dewPoint := stationData.conditions.dewPoint } }

/-- The envelope's forecast field (lines 190–195):
`if (forecast?.days?.length > 0) response.forecast = forecast;
 else if (forecastError) response.forecast = { error: forecastError };`
else the field is omitted. -/
def mkForecastField (forecast : Option GroupedForecast) (forecastError : Option JsError) :
    ForecastField :=
  match forecast with
  | some f =>
    match f.days with
    | _ :: _ => .data f
    | [] => match forecastError with
            | some e => stubOf e
            | none => .omitted
  | none => match forecastError with
            | some e => stubOf e
            | none => .omitted

/-- `getStationData(stationId)` (offshoreStationService.js lines 11–205):
serve the raw cached value under the buoy key on a hit; otherwise fetch the buoy
data (racing the 10 s timeout, rejecting with 504) and the catalogue record,
reject with 404 when no buoy data, run the forecast block when coordinates exist,
compose the envelope, and finally `getOrSet` it under the buoy key with the
buoy-config TTL (`getTimeToNextNDBCUpdate`).  `h`, `m`, `s` are the wall-clock
hour, minute and second of the request instant. -/
def getStationData (cache : Cache) (stationId : String) (env : GetStationEnv) (h m s : ℤ) :
    Except JsError GetStationResult × Cache × GSDStats :=
  let buoyKey := CacheKey.buoy stationId
  match cacheGet cache buoyKey with
  | some v => (.ok (.fromCache v), cache, ⟨0, 0⟩)
  | none =>
    if env.buoyTimeout then
      (.error (appError 504 "Station data fetch timeout"), cache, ⟨0, 0⟩)
    else
      match fetchBuoyData cache stationId env.buoy m s with
      | (none, cache1) => (.error (appError 404 "Station data not found"), cache1, ⟨0, 0⟩)
      | (some stationData, cache1) =>
        let (forecast, forecastError, cache2, stats) :=
          match env.metadata.bind (·.coordinates) with
          | none => (none, none, cache1, ⟨0, 0⟩)
          | some (lon, lat) => forecastBlock cache1 lat lon env h m s
        let response : Envelope :=
          { id := stationId,
            name := env.metadata.bind (·.name),
            observations := mkObservations stationData,
            forecast := mkForecastField forecast forecastError }
        (.ok (.composed response),
         (cacheGetOrSet cache2 buoyKey (.env response) (envelopeCacheTTL m s)).2, stats)

/-- The HTTP status the thin controller layer reports for one `getStationData`
call (controllers/offshoreStationController.js lines 41–67 and
middlewares/errorHandler.js lines 14–35): 200 on a resolved promise,
`err.statusCode || 500` on a rejected one. -/
def controllerStatus : Except JsError GetStationResult → ℤ
  | .ok _ => 200
  | .error e => e.statusCode.getD 500

/-! ## Stampede model (src: services/offshoreStationService.js lines 14–35 and 198,
services/ndbcService.js lines 480–538)

The fetch path of a `getStationData` caller against its station's buoy cache key
is check-then-act: (1) `getCache(buoyConfig.key)` (line 17; `fetchBuoyData`'s
producer-less `getOrSet(cacheKey)` at line 486 is the same read); (2) on a miss,
invoke the upstream fetch (`fetchMetData`/`fetchSpectralData`); (3) after the
fetch returns, store the result (`getOrSet` with an already-computed constant
producer, ndbcService line 531 / offshoreStationService line 198).  The producer
passed to `getOrSet` never performs the fetch itself, so the atomicity of
`get_or_fill` cannot cover the fetch.  This small-step model interleaves `n`
such callers on one key; each numbered action runs atomically. -/

/-- Program counter of one stampede caller. -/
inductive CallerPC where
  | start      -- about to execute the cache read
  | needFetch  -- observed a miss; about to invoke the buoy fetch
  | needStore  -- fetch returned; about to store the result
  | done
  deriving Repr, DecidableEq

/-- Interleaving state of `n` concurrent callers on one cache key. -/
structure StampedeState where
  cacheFilled : Bool
  pcs : List CallerPC
  fetchCount : ℕ
  deriving Repr, DecidableEq

/-- One atomic step of caller `i`: the cache read routes to hit or miss; the
fetch bumps the producer-invocation count; the store fills the cache. -/
def stampedeStep (st : StampedeState) (i : ℕ) : Option StampedeState :=
  match st.pcs.get? i with
  | some .start =>
    some { st with pcs := st.pcs.set i (if st.cacheFilled then .done else .needFetch) }
  | some .needFetch =>
    some { st with pcs := st.pcs.set i .needStore, fetchCount := st.fetchCount + 1 }
  | some .needStore =>
    some { st with pcs := st.pcs.set i .done, cacheFilled := true }
  | _ => none

/-- Run a schedule (a list of caller indices, each taking one step). -/
def stampedeRun (st : StampedeState) : List ℕ → Option StampedeState
  | [] => some st
  | i :: rest =>
    match stampedeStep st i with
    | some st2 => stampedeRun st2 rest
    | none => none

/-- `n` callers against an empty cache. -/
def stampedeInit (n : ℕ) : StampedeState :=
  { cacheFilled := false, pcs := List.replicate n .start, fetchCount := 0 }

/-- Callers that may still reach the fetch action. -/
def pendingCount : List CallerPC → ℕ
  | [] => 0
  | pc :: rest => (if pc = .start ∨ pc = .needFetch then 1 else 0) + pendingCount rest

/-! ## Scheduler model (src: app.js `startApp`, services/startupService.js,
services/scheduler.js)

`startApp` awaits `initializeData()`, which runs the blocking cold-fill prefetch
and then calls startupService's `scheduleNextPrefetch()` (startupService.js line
30), arming a recurring timer whose callback awaits `prefetchAllBuoyData` and
re-arms itself (lines 66–75; also on error).  `startApp` then calls
`startScheduler()` (app.js line 69), arming scheduler.js's own recurring timer
with the same structure (scheduler.js lines 76–86).  The two chains are
independent: scheduler.js's `clearTimeout` only clears its own `prefetchTimer`
handle, and startupService keeps no handle at all.  Within one chain the next
timer is armed only after the previous cycle returned.  Events: a chain's armed
timer fires (its prefetch cycle starts), or its running cycle returns (the chain
re-arms). -/

/-- The armed/running state of the two prefetch timer chains. -/
structure SchedulerState where
  startupArmed : Bool
  startupRunning : Bool
  schedulerArmed : Bool
  schedulerRunning : Bool
  deriving Repr, DecidableEq

/-- A timer-chain event. -/
inductive SchedulerEvent where
  | startupFire
  | startupDone
  | schedulerFire
  | schedulerDone
  deriving Repr, DecidableEq

/-- One event: a chain's timer may fire only while armed (firing consumes the
timer and starts a cycle); a cycle may return only while running (completion
re-arms that chain — startupService.js lines 70/73, scheduler.js line 80). -/
def schedulerStep (st : SchedulerState) (e : SchedulerEvent) : Option SchedulerState :=
  match e with
  | .startupFire =>
    if st.startupArmed then
      some { st with startupArmed := false, startupRunning := true } else none
  | .startupDone =>
    if st.startupRunning then
      some { st with startupRunning := false, startupArmed := true } else none
  | .schedulerFire =>
    if st.schedulerArmed then
      some { st with schedulerArmed := false, schedulerRunning := true } else none
  | .schedulerDone =>
    if st.schedulerRunning then
      some { st with schedulerRunning := false, schedulerArmed := true } else none

/-- Run a sequence of events. -/
def schedulerRunEvents (st : SchedulerState) : List SchedulerEvent → Option SchedulerState
  | [] => some st
  | e :: rest =>
    match schedulerStep st e with
    | some st2 => schedulerRunEvents st2 rest
    | none => none

/-- The state right after `startApp` finishes: the cold-fill has returned and
both chains' timers are armed, none running. -/
def appStartState : SchedulerState :=
  { startupArmed := true, startupRunning := false,
    schedulerArmed := true, schedulerRunning := false }

/-- How many prefetch cycles are executing. -/
def runningCycles (st : SchedulerState) : ℕ :=
  (if st.startupRunning then 1 else 0) + (if st.schedulerRunning then 1 else 0)

/-! ## Concrete example data used by counterexamples and witnesses -/

/-- A parsed observation row with valid wave data (height 2 ft, period 8 s). -/
def obsRowRecent : MetObs :=
  { time := 1000,
    wind := { direction := some 180, speed := some 10, gust := none },
    waves := { height := some 2, dominantPeriod := some 8, averagePeriod := none, direction := none },
    conditions := { pressure := none, airTemp := none, waterTemp := none, dewPoint := none } }

/-- An older row whose wave fields are all "MM" (absent) but whose wind is valid. -/
def obsRowOld : MetObs :=
  { time := 0,
    wind := { direction := some 180, speed := some 10, gust := none },
    waves := { height := none, dominantPeriod := none, averagePeriod := none, direction := none },
    conditions := { pressure := none, airTemp := none, waterTemp := none, dewPoint := none } }

/-- A recent row with valid wave data (height 3 ft, period 8 s, wind 10 mph). -/
def obsRowA : MetObs :=
  { time := 1000,
    wind := { direction := some 180, speed := some 10, gust := none },
    waves := { height := some 3, dominantPeriod := some 8, averagePeriod := none, direction := none },
    conditions := { pressure := none, airTemp := none, waterTemp := none, dewPoint := none } }

/-- An older row with valid wave data (height 1 ft, period 10 s, wind 5 mph). -/
def obsRowB : MetObs :=
  { time := 0,
    wind := { direction := some 180, speed := some 5, gust := none },
    waves := { height := some 1, dominantPeriod := some 10, averagePeriod := none, direction := none },
    conditions := { pressure := none, airTemp := none, waterTemp := none, dewPoint := none } }

/-- The wave-height trend entry `analyzeTrends` produces for `[obsRowA, obsRowB]`. -/
def demoWaveEntry : TrendEntry :=
  { trend := "building", change := some 2, current := 3, lastValidReading := 1000 }

/-- The full trend record `analyzeTrends` produces for `[obsRowA, obsRowB]`. -/
def demoTrends : Trends :=
  { waveHeight := some demoWaveEntry,
    wavePeriod := some { trend := "shortening", change := some (-2), current := 8,
                         lastValidReading := 1000 },
    wind := { trend := "increasing", change := 5, current := some 10 },
    timeSpanStart := 0, timeSpanEnd := 1000, lastValidWaveReading := some 1000 }

/-- The envelope a resolved `getStationData` call composed, when it did not serve
a raw cached value. -/
def resultEnvelope : Except JsError GetStationResult → Option Envelope
  | .ok (.composed e) => some e
  | _ => none

/-- Station 51201 (Waimea Bay, HI) as the catalogue records it: GeoJSON
coordinates `[-158.12, 21.67]` — outside all three model grids. -/
def station51201Meta : StationMeta :=
  { name := some "Waimea Bay, HI", coordinates := some (-158.12, 21.67) }

/-- Station 44098 (Jeffreys Ledge, NH): GeoJSON coordinates `[-70.17, 42.8]` —
inside the Atlantic grid. -/
def station44098Meta : StationMeta :=
  { name := some "Jeffreys Ledge, NH", coordinates := some (-70.17, 42.8) }

/-- A buoy upstream that returns the two valid rows and no spectral record. -/
def demoBuoyOracle : BuoyOracle := { metRows := some [obsRowA, obsRowB], spectral := none }

/-- One `get_station` call on station 51201 with a healthy buoy upstream. -/
def outOfGridEnv : GetStationEnv :=
  { metadata := some station51201Meta, buoy := demoBuoyOracle, buoyTimeout := false,
    forecastHttp := .ok [], forecastTimeout := false }

/-- The axios rejection for a 502 response: a plain error with no `statusCode`
property (axios keeps the status under `response.status`). -/
def error502 : JsError :=
  { message := "Request failed with status code 502", name := "AxiosError", statusCode := none }

/-- One `get_station` call on station 44098 whose forecast endpoint returns 502. -/
def badGatewayEnv : GetStationEnv :=
  { metadata := some station44098Meta, buoy := demoBuoyOracle, buoyTimeout := false,
    forecastHttp := .error error502, forecastTimeout := false }

/-- The state in which both timer chains' prefetch cycles are executing. -/
def doubleRunState : SchedulerState :=
  { startupArmed := false, startupRunning := true,
    schedulerArmed := false, schedulerRunning := true }

/-! # Theorems settling the claims -/

/-! ## Cache lookup helper lemmas -/

/-- Lookup on a non-empty cache: the head entry answers iff its key matches. -/
theorem cacheGet_cons (e : CacheEntry) (c : Cache) (k : CacheKey) :
    cacheGet (e :: c) k = if e.key = k then some e.value else cacheGet c k := by
  by_cases h : e.key = k <;> simp [cacheGet, List.find?, h]

/-- Lookup on the empty cache misses. -/
theorem cacheGet_nil (k : CacheKey) : cacheGet [] k = none := rfl

/-- The two cache-key families are disjoint. -/
theorem buoyKey_ne_waveModel (sid : String) (a b : ℚ) :
    (CacheKey.buoy sid = CacheKey.waveModel a b) = False := by simp

/-! ## C10 — longitude normalization -/

/-- C10, counterexample: the normalization `lon < 0 ? lon + 360 : lon` does NOT map
every input longitude into [0, 360) (360 is a fixed point), is NOT idempotent below
−360 (norm(norm(−400)) = 320 ≠ −40 = norm(−400)), and does NOT preserve the
rectangle-containment test there (at lat 30, norm(−460) = −100 re-normalizes into
the Atlantic grid while −460 itself matches no model). -/
theorem C10_counterexample :
    ¬ (normalizeLon 360 < 360)
    ∧ normalizeLon (normalizeLon (-400)) ≠ normalizeLon (-400)
    ∧ findModelForLocation 30 (normalizeLon (-460)) ≠ findModelForLocation 30 (-460) := by
  have h1 : findModelForLocation 30 (normalizeLon (-460)) = some atlantic := by
    norm_num [findModelForLocation, models, inModelBounds, pacific, atlantic, gulf,
      normalizeLon, List.find?]
  have h2 : findModelForLocation 30 (-460) = none := by
    norm_num [findModelForLocation, models, inModelBounds, pacific, atlantic, gulf,
      normalizeLon, List.find?]
  refine ⟨by norm_num [normalizeLon], by norm_num [normalizeLon], by rw [h1, h2]; simp⟩

/-- C10, amended: for input longitudes ≥ −360 the grid router's normalization maps
[−360, 360) into [0, 360), is idempotent, and preserves the rectangle-containment
test (`findModelForLocation` is unchanged by pre-normalizing the longitude). -/
theorem C10_amended (lon : ℚ) (hlon : -360 ≤ lon) :
    (lon < 360 → 0 ≤ normalizeLon lon ∧ normalizeLon lon < 360)
    ∧ normalizeLon (normalizeLon lon) = normalizeLon lon
    ∧ ∀ lat, findModelForLocation lat (normalizeLon lon) = findModelForLocation lat lon := by
  have hid : normalizeLon (normalizeLon lon) = normalizeLon lon := by
    unfold normalizeLon
    split_ifs with h1 h2 <;> first | rfl | linarith
  refine ⟨?_, hid, ?_⟩
  · intro h360
    unfold normalizeLon
    split_ifs with h1 <;> constructor <;> linarith
  · intro lat
    unfold findModelForLocation
    congr 1
    funext mdl
    unfold inModelBounds
    rw [hid]

/-- C10, witness: the amended theorem applied at the real station longitude −158.12. -/
theorem C10_witness :
    (-360 : ℚ) ≤ -158.12
    ∧ (0 ≤ normalizeLon (-158.12) ∧ normalizeLon (-158.12) < 360)
    ∧ normalizeLon (normalizeLon (-158.12)) = normalizeLon (-158.12) := by
  have h := C10_amended (-158.12) (by norm_num)
  exact ⟨by norm_num, h.1 (by norm_num), h.2.1⟩

/-! ## C3 — forecast cache key agreement -/

/-- C3, counterexample: for station 44098's coordinates (lat 42.8, lon −70.17) the
Bulk Prefetcher's forecast cache key (raw coordinates, buoyPrefetchService.js lines
66–71) differs from the Station Aggregator's (normalized longitude,
offshoreStationService.js lines 58–66), so the two address different cache entries
for the same station. -/
theorem C3_counterexample :
    prefetchForecastKey 42.8 (-70.17) ≠ aggregatorForecastKey 42.8 (-70.17) := by
  simp only [prefetchForecastKey, aggregatorForecastKey, normalizeLon, ne_eq,
    CacheKey.waveModel.injEq]
  norm_num

/-- C3, amended: the aggregator's reads and writes use the normalized-longitude key
throughout, but the prefetcher builds its forecast key from the raw coordinates, so
the two components address the same cache entry exactly for stations with
non-negative longitude. -/
theorem C3_amended (lat lon : ℚ) :
    prefetchForecastKey lat lon = aggregatorForecastKey lat lon ↔ 0 ≤ lon := by
  simp only [prefetchForecastKey, aggregatorForecastKey, normalizeLon, CacheKey.waveModel.injEq,
    true_and]
  split_ifs with h
  · constructor
    · intro heq; linarith
    · intro h0; linarith
  · simp; linarith

/-! ## C4 — envelope cache TTL -/

/-- C4, counterexample: at 10:54:00 UTC the aggregator caches the envelope with
`buoyConfig.ttl` = `getTimeToNextNDBCUpdate` = 1920 s, while the TTLs of the
observation and forecast entries are 180 s (`getTimeToNextUpdate`) and 360 s
(`getTimeToNextModelRun`), so the envelope TTL is not min(obs_ttl, fcst_ttl). -/
theorem C4_counterexample :
    envelopeCacheTTL 54 0 ≠ min (getTimeToNextUpdate 54 0) (getTimeToNextModelRun 10 54 0) := by
  norm_num [envelopeCacheTTL, getTimeToNextNDBCUpdate, nextNDBCUpdateMinute, getTimeToNextUpdate,
    getTimeToNextModelRun, nextModelRunAvailableAt]

/-- C4, amended: the envelope is cached with the buoy-data config TTL
(`getTimeToNextNDBCUpdate`, independent of the forecast TTL), which for every
wall-clock minute and second is positive, at most 2100 s, and in particular never
exceeds 6 hours. -/
theorem C4_amended (m s : ℤ) (hm0 : 0 ≤ m) (hm : m < 60) (hs0 : 0 ≤ s) (hs : s < 60) :
    envelopeCacheTTL m s = getTimeToNextNDBCUpdate m s
    ∧ 0 < envelopeCacheTTL m s
    ∧ envelopeCacheTTL m s ≤ 2100
    ∧ envelopeCacheTTL m s ≤ 6 * 3600 := by
  refine ⟨rfl, ?_, ?_, ?_⟩ <;>
    · simp only [envelopeCacheTTL, getTimeToNextNDBCUpdate, nextNDBCUpdateMinute]
      split_ifs <;> omega

/-- C4, witness: the amended theorem applied at minute 30, second 0. -/
theorem C4_witness :
    (0 : ℤ) ≤ 30 ∧ (30 : ℤ) < 60 ∧ (0 : ℤ) ≤ 0 ∧ (0 : ℤ) < 60
    ∧ envelopeCacheTTL 30 0 ≤ 6 * 3600 := by
  exact ⟨by decide, by decide, by decide, by decide,
    (C4_amended 30 0 (by decide) (by decide) (by decide) (by decide)).2.2.2⟩

/-! ## C7 — latest available model cycle -/

/-- Closed form of `availableRunHour` by hour range. -/
theorem availableRunHour_eq (H : ℕ) :
    availableRunHour H = if 23 ≤ H then some 18 else if 17 ≤ H then some 12
      else if 11 ≤ H then some 6 else if 5 ≤ H then some 0 else none := by
  unfold availableRunHour
  split_ifs with h1 h2 h3 h4
  · simp only [List.find?, decide_eq_true h1]
  · simp only [List.find?, decide_eq_false h1, decide_eq_true h2]
  · simp only [List.find?, decide_eq_false h1, decide_eq_false h2, decide_eq_true h3]
  · simp only [List.find?, decide_eq_false h1, decide_eq_false h2, decide_eq_false h3,
      decide_eq_true h4]
  · simp only [List.find?, decide_eq_false h1, decide_eq_false h2, decide_eq_false h3,
      decide_eq_false h4]

/-- C7: for every instant (from epoch day 1 on, so that "yesterday" exists),
`getAvailableModelRun` returns a cycle of {00, 06, 12, 18} whose availability
instant (nominal hour + 5 h) is ≤ now and is the most recent such cycle of any
calendar day; when no cycle of the current day is yet available it returns
yesterday's 18Z with the correct calendar day; and at 10:59:59 UTC the latest
cycle is 00 while at 11:00:00 UTC it is 06. -/
theorem C7_thm (now : ℕ) (hday : 86400 ≤ now) :
    ((getAvailableModelRun now).2 ∈ ([0, 6, 12, 18] : List ℕ)
     ∧ cycleAvailabilityInstant (getAvailableModelRun now) ≤ now
     ∧ (∀ d hc, hc ∈ ([0, 6, 12, 18] : List ℕ) →
         cycleAvailabilityInstant (d, hc) ≤ now →
         cycleAvailabilityInstant (d, hc) ≤ cycleAvailabilityInstant (getAvailableModelRun now)))
    ∧ (currentHourUTC now < 5 → getAvailableModelRun now = (now / 86400 - 1, 18))
    ∧ getAvailableModelRun (20000 * 86400 + 39599) = (20000, 0)
    ∧ getAvailableModelRun (20000 * 86400 + 39600) = (20000, 6) := by
  have hb1 : getAvailableModelRun (20000 * 86400 + 39599) = (20000, 0) := by decide
  have hb2 : getAvailableModelRun (20000 * 86400 + 39600) = (20000, 6) := by decide
  have hrun : getAvailableModelRun now =
      match availableRunHour (currentHourUTC now) with
      | some hr => (now / 86400, hr)
      | none => (now / 86400 - 1, 18) := rfl
  rw [availableRunHour_eq] at hrun
  have hH : currentHourUTC now = now % 86400 / 3600 := rfl
  by_cases h1 : 23 ≤ currentHourUTC now
  · rw [if_pos h1] at hrun
    rw [hH] at h1
    simp only [hrun]
    refine ⟨⟨by simp, by simp only [cycleAvailabilityInstant]; omega, ?_⟩,
      by rw [hH]; intro hlt; omega, hb1, hb2⟩
    intro d hc hmem hle
    simp only [cycleAvailabilityInstant] at *
    simp only [List.mem_cons, List.not_mem_nil, or_false] at hmem
    rcases hmem with rfl | rfl | rfl | rfl <;> omega
  · rw [if_neg h1] at hrun
    by_cases h2 : 17 ≤ currentHourUTC now
    · rw [if_pos h2] at hrun
      rw [hH] at h1 h2
      simp only [hrun]
      refine ⟨⟨by simp, by simp only [cycleAvailabilityInstant]; omega, ?_⟩,
        by rw [hH]; intro hlt; omega, hb1, hb2⟩
      intro d hc hmem hle
      simp only [cycleAvailabilityInstant] at *
      simp only [List.mem_cons, List.not_mem_nil, or_false] at hmem
      rcases hmem with rfl | rfl | rfl | rfl <;> omega
    · rw [if_neg h2] at hrun
      by_cases h3 : 11 ≤ currentHourUTC now
      · rw [if_pos h3] at hrun
        rw [hH] at h1 h2 h3
        simp only [hrun]
        refine ⟨⟨by simp, by simp only [cycleAvailabilityInstant]; omega, ?_⟩,
          by rw [hH]; intro hlt; omega, hb1, hb2⟩
        intro d hc hmem hle
        simp only [cycleAvailabilityInstant] at *
        simp only [List.mem_cons, List.not_mem_nil, or_false] at hmem
        rcases hmem with rfl | rfl | rfl | rfl <;> omega
      · rw [if_neg h3] at hrun
        by_cases h4 : 5 ≤ currentHourUTC now
        · rw [if_pos h4] at hrun
          rw [hH] at h1 h2 h3 h4
          simp only [hrun]
          refine ⟨⟨by simp, by simp only [cycleAvailabilityInstant]; omega, ?_⟩,
            by rw [hH]; intro hlt; omega, hb1, hb2⟩
          intro d hc hmem hle
          simp only [cycleAvailabilityInstant] at *
          simp only [List.mem_cons, List.not_mem_nil, or_false] at hmem
          rcases hmem with rfl | rfl | rfl | rfl <;> omega
        · rw [if_neg h4] at hrun
          rw [hH] at h1 h2 h3 h4
          simp only [hrun]
          refine ⟨⟨by simp, by simp only [cycleAvailabilityInstant]; omega, ?_⟩,
            fun _ => trivial, hb1, hb2⟩
          intro d hc hmem hle
          simp only [cycleAvailabilityInstant] at *
          simp only [List.mem_cons, List.not_mem_nil, or_false] at hmem
          rcases hmem with rfl | rfl | rfl | rfl <;> omega

/-- C7, witness: the theorem applied at 10:59:59 UTC of epoch day 20000. -/
theorem C7_witness :
    86400 ≤ 20000 * 86400 + 39599
    ∧ cycleAvailabilityInstant (getAvailableModelRun (20000 * 86400 + 39599))
        ≤ 20000 * 86400 + 39599 := by
  exact ⟨by decide, (C7_thm (20000 * 86400 + 39599) (by decide)).1.2.1⟩

/-! ## C8 — observation trends -/

/-- Characterization of the wave-height trend string for a numeric change. -/
theorem waveTrendString_spec (c : ℚ) :
    ((waveTrendString (some c) = "steady") ↔ |c| < 1/2)
    ∧ ((waveTrendString (some c) = "building") ↔ 1/2 ≤ c)
    ∧ ((waveTrendString (some c) = "dropping") ↔ c ≤ -(1/2)) := by
  simp only [waveTrendString]
  split_ifs with h0 hlt hpos
  · subst h0
    refine ⟨⟨fun _ => by norm_num, fun _ => rfl⟩, ⟨fun h => by simp at h, fun h => by norm_num at h⟩,
      ⟨fun h => by simp at h, fun h => by norm_num at h⟩⟩
  · refine ⟨⟨fun _ => hlt, fun _ => rfl⟩, ⟨fun h => by simp at h, fun h => ?_⟩,
      ⟨fun h => by simp at h, fun h => ?_⟩⟩
    · exfalso; rw [abs_lt] at hlt; linarith
    · exfalso; rw [abs_lt] at hlt; linarith
  · have habs : 1/2 ≤ |c| := not_lt.1 hlt
    have hc : 1/2 ≤ c := by rwa [abs_of_pos hpos] at habs
    refine ⟨⟨fun h => by simp at h, fun h => by exfalso; linarith⟩, ⟨fun _ => hc, fun _ => rfl⟩,
      ⟨fun h => by simp at h, fun h => by exfalso; linarith⟩⟩
  · have hcneg : c < 0 := lt_of_le_of_ne (not_lt.1 hpos) h0
    have habs : 1/2 ≤ |c| := not_lt.1 hlt
    have hc : c ≤ -(1/2) := by rw [abs_of_neg hcneg] at habs; linarith
    refine ⟨⟨fun h => by simp at h, fun h => by exfalso; linarith⟩,
      ⟨fun h => by simp at h, fun h => by exfalso; linarith⟩,
      ⟨fun _ => hc, fun _ => rfl⟩⟩

/-- C8, counterexample: a two-row window with exactly ONE valid wave sample still
gets a wave-height trend field (Δ is computed between the single valid sample and
itself, giving change 0 and "steady"); the claim requires the field to be absent
whenever fewer than two valid samples exist. -/
theorem C8_counterexample :
    (([obsRowRecent, obsRowOld].take 8).filter validWave).length = 1
    ∧ (analyzeTrends [obsRowRecent, obsRowOld]).bind (·.waveHeight)
        = some { trend := "steady", change := some 0, current := 2, lastValidReading := 1000 } := by
  constructor
  · rfl
  · norm_num [analyzeTrends, obsRowRecent, obsRowOld, validWave, List.find?,
      waveTrendString, periodTrendString]

/-- C8, amended: for the 8-most-recent window, a trend record exists iff the
window has at least two rows; the wave-height and wave-period deltas equal
(most-recent-valid) − (oldest-valid-within-window), where validity means a
non-null wave height; the wave-height trend is steady iff |Δ| < 0.5 ft, building
iff Δ ≥ 0.5 and dropping iff Δ ≤ −0.5; the wave-height field is absent iff NO
valid sample exists (a single valid sample still yields a field, with Δ = 0);
and the wind delta is taken between the newest and oldest rows of the window
regardless of validity, with missing speeds read as 0. -/
theorem C8_amended (observations : List MetObs) :
    ((observations.take 8).length < 2 → analyzeTrends observations = none)
    ∧ (∀ t, analyzeTrends observations = some t →
        ((t.waveHeight = none) ↔ (observations.take 8).find? validWave = none)
        ∧ (∀ e, t.waveHeight = some e →
            ∀ l f, (observations.take 8).find? validWave = some l →
              (observations.take 8).reverse.find? validWave = some f →
              e.change = some (l.waves.height.getD 0 - f.waves.height.getD 0)
              ∧ (e.trend = "steady" ↔ |l.waves.height.getD 0 - f.waves.height.getD 0| < 1/2)
              ∧ (e.trend = "building" ↔ 1/2 ≤ l.waves.height.getD 0 - f.waves.height.getD 0)
              ∧ (e.trend = "dropping" ↔
                  l.waves.height.getD 0 - f.waves.height.getD 0 ≤ -(1/2)))
        ∧ (∀ pe, t.wavePeriod = some pe →
            ∀ l f, (observations.take 8).find? validWave = some l →
              (observations.take 8).reverse.find? validWave = some f →
              pe.change = some (l.waves.dominantPeriod.getD 0 - f.waves.dominantPeriod.getD 0))
        ∧ (∀ a tl, observations.take 8 = a :: tl →
            t.wind.change =
              a.wind.speed.getD 0 - ((a :: tl).getLast (List.cons_ne_nil a tl)).wind.speed.getD 0)) := by
  rcases h8 : observations.take 8 with _ | ⟨a, _ | ⟨b, tl⟩⟩
  · refine ⟨fun _ => ?_, fun t ht => ?_⟩
    · unfold analyzeTrends; rw [h8]
    · exfalso; unfold analyzeTrends at ht; rw [h8] at ht; simp at ht
  · refine ⟨fun _ => ?_, fun t ht => ?_⟩
    · unfold analyzeTrends; rw [h8]
    · exfalso; unfold analyzeTrends at ht; rw [h8] at ht; simp at ht
  · refine ⟨fun hlen => ?_, fun t ht => ?_⟩
    · exfalso; simp only [List.length_cons] at hlen; omega
    · unfold analyzeTrends at ht
      rw [h8] at ht
      simp only [Option.some.injEq] at ht
      subst ht
      refine ⟨?_, ?_, ?_, ?_⟩
      · cases hfind : (a :: b :: tl).find? validWave with
        | none => simp [hfind]
        | some l => simp [hfind]
      · intro e he l f hl hf
        rw [hl, hf] at he
        dsimp only at he
        simp only [Option.some.injEq] at he
        subst he
        refine ⟨rfl, ?_, ?_, ?_⟩
        · exact (waveTrendString_spec _).1
        · exact (waveTrendString_spec _).2.1
        · exact (waveTrendString_spec _).2.2
      · intro pe hpe l f hl hf
        rw [hl, hf] at hpe
        dsimp only at hpe
        cases hdp : l.waves.dominantPeriod with
        | none => rw [hdp] at hpe; dsimp only at hpe; simp at hpe
        | some p =>
          rw [hdp] at hpe
          dsimp only at hpe
          by_cases hp0 : p = 0
          · rw [if_pos hp0] at hpe; simp at hpe
          · rw [if_neg hp0] at hpe
            simp only [Option.some.injEq] at hpe
            subst hpe
            rfl
      · intro a2 tl2 h82
        injection h82 with hh1 hh2
        subst hh1
        subst hh2
        rfl

/-- C8, witness: the amended theorem applied to a window of two valid rows
(heights 3 and 1), whose computed trend record is `demoTrends`. -/
theorem C8_witness :
    analyzeTrends [obsRowA, obsRowB] = some demoTrends
    ∧ demoWaveEntry.change = some (obsRowA.waves.height.getD 0 - obsRowB.waves.height.getD 0)
    ∧ (demoWaveEntry.trend = "building" ↔
        1/2 ≤ obsRowA.waves.height.getD 0 - obsRowB.waves.height.getD 0) := by
  have h0 : analyzeTrends [obsRowA, obsRowB] = some demoTrends := by
    norm_num [analyzeTrends, obsRowA, obsRowB, validWave, List.find?, waveTrendString,
      periodTrendString, demoTrends, demoWaveEntry]
  have hfl : ([obsRowA, obsRowB].take 8).find? validWave = some obsRowA := rfl
  have hfr : ([obsRowA, obsRowB].take 8).reverse.find? validWave = some obsRowB := rfl
  have h2 := (((C8_amended [obsRowA, obsRowB]).2 demoTrends h0).2.1) demoWaveEntry rfl
    obsRowA obsRowB hfl hfr
  exact ⟨h0, h2.1, h2.2.2.1⟩

/-! ## C1 — single-flight under stampede -/

/-- Replacing a list element exchanges its contribution to the pending count. -/
theorem pendingCount_set (l : List CallerPC) (i : ℕ) (v a : CallerPC)
    (hget : l.get? i = some a) :
    pendingCount (l.set i v) + (if a = .start ∨ a = .needFetch then 1 else 0)
      = pendingCount l + (if v = .start ∨ v = .needFetch then 1 else 0) := by
  induction l generalizing i with
  | nil => simp at hget
  | cons x xs ih =>
    cases i with
    | zero =>
      simp only [List.get?] at hget
      injection hget with hx
      subst hx
      simp only [List.set, pendingCount]
      omega
    | succ j =>
      simp only [List.get?] at hget
      simp only [List.set, pendingCount]
      have := ih j hget
      omega

/-- One stampede step never increases fetches-plus-pending-callers. -/
theorem stampedeStep_invariant (st st2 : StampedeState) (i : ℕ)
    (hstep : stampedeStep st i = some st2) :
    st2.fetchCount + pendingCount st2.pcs ≤ st.fetchCount + pendingCount st.pcs := by
  unfold stampedeStep at hstep
  cases hget : st.pcs.get? i with
  | none => rw [hget] at hstep; simp at hstep
  | some pc =>
    rw [hget] at hstep
    cases pc with
    | start =>
      simp only [Option.some.injEq] at hstep
      subst hstep
      cases hcf : st.cacheFilled with
      | true =>
        have := pendingCount_set st.pcs i CallerPC.done CallerPC.start hget
        simp only [hcf]
        simp at this ⊢
        omega
      | false =>
        have := pendingCount_set st.pcs i CallerPC.needFetch CallerPC.start hget
        simp only [hcf]
        simp at this ⊢
        omega
    | needFetch =>
      simp only [Option.some.injEq] at hstep
      subst hstep
      have := pendingCount_set st.pcs i CallerPC.needStore CallerPC.needFetch hget
      simp at this ⊢
      omega
    | needStore =>
      simp only [Option.some.injEq] at hstep
      subst hstep
      have := pendingCount_set st.pcs i CallerPC.done CallerPC.needStore hget
      simp at this ⊢
      omega
    | done => simp at hstep

/-- The step invariant extended over a whole schedule. -/
theorem stampedeRun_invariant (sched : List ℕ) (st st2 : StampedeState)
    (hrun : stampedeRun st sched = some st2) :
    st2.fetchCount + pendingCount st2.pcs ≤ st.fetchCount + pendingCount st.pcs := by
  induction sched generalizing st with
  | nil =>
    unfold stampedeRun at hrun
    injection hrun with h
    subst h
    exact le_refl _
  | cons i rest ih =>
    unfold stampedeRun at hrun
    cases hstep : stampedeStep st i with
    | none => rw [hstep] at hrun; simp at hrun
    | some stm =>
      rw [hstep] at hrun
      exact le_trans (ih stm hrun) (stampedeStep_invariant st stm i hstep)

/-- All of `n` fresh callers are pending. -/
theorem pendingCount_replicate (n : ℕ) :
    pendingCount (List.replicate n CallerPC.start) = n := by
  induction n with
  | zero => rfl
  | succ k ih => simp [List.replicate, pendingCount, ih]; omega

/-- C1, counterexample: the interleaving in which both callers read the empty
cache before either fetches is a valid execution of the code's
check-then-fetch-then-store path and invokes the buoy producer TWICE, not once;
the claim's "exactly one fetch" fails under stampede. -/
theorem C1_counterexample :
    stampedeRun (stampedeInit 2) [0, 1, 0, 1, 0, 1]
      = some { cacheFilled := true, pcs := [CallerPC.done, CallerPC.done], fetchCount := 2 }
    ∧ (2 : ℕ) ≠ 1 := by
  exact ⟨by decide, by decide⟩

/-- C1, amended: concurrent `get_station` fills on one key do NOT coalesce — the
cache is read before the fetch and written only after it, outside any
single-flight section, so each caller that observed the miss fetches: an
overlapping 2-caller schedule performs 2 fetches, the number of producer
invocations in any execution is bounded only by the number of callers, and a
caller scheduled after another's store completes performs no fetch (sequential
2-caller schedule: 1 fetch). -/
theorem C1_amended (n : ℕ) (sched : List ℕ) (st2 : StampedeState)
    (hrun : stampedeRun (stampedeInit n) sched = some st2) :
    st2.fetchCount ≤ n
    ∧ stampedeRun (stampedeInit 2) [0, 1, 0, 1, 0, 1]
        = some { cacheFilled := true, pcs := [CallerPC.done, CallerPC.done], fetchCount := 2 }
    ∧ stampedeRun (stampedeInit 2) [0, 0, 0, 1]
        = some { cacheFilled := true, pcs := [CallerPC.done, CallerPC.done], fetchCount := 1 } := by
  refine ⟨?_, by decide, by decide⟩
  have h1 := stampedeRun_invariant sched (stampedeInit n) st2 hrun
  have h2 : pendingCount (stampedeInit n).pcs = n := pendingCount_replicate n
  have h3 : (stampedeInit n).fetchCount = 0 := rfl
  omega

/-- C1, witness: the amended theorem applied to the overlapping 2-caller schedule. -/
theorem C1_witness :
    stampedeRun (stampedeInit 2) [0, 1, 0, 1, 0, 1]
      = some { cacheFilled := true, pcs := [CallerPC.done, CallerPC.done], fetchCount := 2 }
    ∧ (2 : ℕ) ≤ 2 := by
  refine ⟨by decide, ?_⟩
  exact (C1_amended 2 [0, 1, 0, 1, 0, 1]
    { cacheFilled := true, pcs := [CallerPC.done, CallerPC.done], fetchCount := 2 }
    (by decide)).1

/-! ## C2 — out-of-grid stations -/

/-- C2, counterexample: station 51201 at (21.67, −158.12) is outside every model
grid, yet `getStationData` DOES hand it to the forecast fetcher (one invocation)
and returns an envelope whose forecast field is an error stub — not omitted. -/
theorem C2_counterexample :
    isStationInModelBounds 21.67 (-158.12) = false
    ∧ (resultEnvelope (getStationData [] "51201" outOfGridEnv 12 0 0).1).map (·.forecast)
        = some (ForecastField.errorStub "is outside all model bounds" "Error" 500)
    ∧ (resultEnvelope (getStationData [] "51201" outOfGridEnv 12 0 0).1).map
        (fun e => e.observations.waves.isSome) = some true
    ∧ (getStationData [] "51201" outOfGridEnv 12 0 0).2.2.forecastCalls = 1 := by
  have hbounds : isStationInModelBounds 21.67 (-158.12) = false := by
    norm_num [isStationInModelBounds, models, inModelBounds, pacific, atlantic, gulf,
      normalizeLon, List.any]
  have heval : getStationData [] "51201" outOfGridEnv 12 0 0
      = ((.ok (.composed
          { id := "51201", name := some "Waimea Bay, HI",
            observations := mkObservations (mkCombinedData obsRowA (some demoTrends) none),
            forecast := .errorStub "is outside all model bounds" "Error" 500 })),
         [⟨CacheKey.buoy "51201", .obs (mkCombinedData obsRowA (some demoTrends) none),
           getTimeToNextUpdate 0 0⟩],
         ⟨1, 0⟩) := by
    norm_num [getStationData, outOfGridEnv, station51201Meta, demoBuoyOracle, fetchBuoyData,
      fetchMetData, hasWaveOrWind, obsRowA, obsRowB, cacheGet_nil, cacheGet_cons,
      buoyKey_ne_waveModel, List.find?, cacheGetOrSet, forecastBlock, normalizeLon,
      getPointForecast, findModelForLocation, models, inModelBounds, pacific, atlantic, gulf,
      mkForecastField, stubOf, outOfBoundsError, analyzeTrends, validWave, waveTrendString,
      periodTrendString, demoTrends, demoWaveEntry, mkCombinedData, mkObservations]
  rw [heval]
  refine ⟨hbounds, ?_, ?_, rfl⟩
  · rfl
  · norm_num [resultEnvelope, mkObservations, mkCombinedData, obsRowA]

/-- C2, amended: for every station whose normalized coordinates lie outside all
three grids (and a cold cache and healthy buoy upstream), `getStationData` still
invokes the forecast fetcher once — which rejects the point before issuing any
HTTP GET — and returns an envelope that contains the observation together with a
forecast ERROR STUB (the out-of-bounds error, statusCode 500); the forecast
field is not omitted. -/
theorem C2_amended (cache : Cache) (stationId : String) (env : GetStationEnv) (h m s : ℤ)
    (lat lon : ℚ)
    (hcoords : env.metadata.bind (·.coordinates) = some (lon, lat))
    (hgrid : findModelForLocation lat (normalizeLon lon) = none)
    (hmiss1 : cacheGet cache (CacheKey.buoy stationId) = none)
    (hmiss2 : cacheGet cache (CacheKey.waveModel lat (normalizeLon lon)) = none)
    (hnt : env.buoyTimeout = false)
    (hft : env.forecastTimeout = false)
    (metData : MetObs) (trends : Option Trends)
    (hmet : fetchMetData env.buoy.metRows = some (metData, trends)) :
    (getStationData cache stationId env h m s).1
      = .ok (.composed
          { id := stationId, name := env.metadata.bind (·.name),
            observations := mkObservations (mkCombinedData metData trends env.buoy.spectral),
            forecast := stubOf outOfBoundsError })
    ∧ (getStationData cache stationId env h m s).2.2 = ⟨1, 0⟩ := by
  constructor <;>
  · simp only [getStationData, fetchBuoyData, cacheGetOrSet, forecastBlock, getPointForecast,
      mkForecastField, stubOf, cacheGet_cons, buoyKey_ne_waveModel, hmiss1, hmiss2, hmet,
      hcoords, hgrid, hnt, hft, Bool.false_eq_true, if_false, eq_self_iff_true, if_true]

/-- C2, witness: the amended theorem applied to station 51201's data. -/
theorem C2_witness :
    findModelForLocation 21.67 (normalizeLon (-158.12)) = none
    ∧ (getStationData [] "51201" outOfGridEnv 12 0 0).1
      = .ok (.composed
          { id := "51201", name := some "Waimea Bay, HI",
            observations := mkObservations (mkCombinedData obsRowA (some demoTrends) none),
            forecast := stubOf outOfBoundsError }) := by
  have hgrid : findModelForLocation 21.67 (normalizeLon (-158.12)) = none := by
    norm_num [findModelForLocation, models, inModelBounds, pacific, atlantic, gulf,
      normalizeLon, List.find?]
  have hmet : fetchMetData outOfGridEnv.buoy.metRows = some (obsRowA, some demoTrends) := by
    norm_num [fetchMetData, outOfGridEnv, demoBuoyOracle, hasWaveOrWind, obsRowA, obsRowB,
      analyzeTrends, validWave, List.find?, waveTrendString, periodTrendString, demoTrends,
      demoWaveEntry]
  have happ := C2_amended [] "51201" outOfGridEnv 12 0 0 21.67 (-158.12) rfl hgrid
    rfl rfl rfl rfl obsRowA (some demoTrends) hmet
  exact ⟨hgrid, happ.1⟩

/-! ## C5 — forecast retry policy -/

/-- C5, counterexample: with the forecast endpoint answering 502, a cold
`getStationData` call for station 44098 issues exactly ONE forecast GET — not 3
attempts with 2-second backoff — and immediately returns the 200 envelope with
the error stub (whose statusCode is 500: the axios error has no `statusCode`
property, so the stub defaults it). -/
theorem C5_counterexample :
    (getStationData [] "44098" badGatewayEnv 12 0 0).2.2.forecastGets = 1
    ∧ (getStationData [] "44098" badGatewayEnv 12 0 0).2.2.forecastGets ≠ 3
    ∧ (resultEnvelope (getStationData [] "44098" badGatewayEnv 12 0 0).1).map (·.forecast)
        = some (ForecastField.errorStub "Request failed with status code 502" "AxiosError" 500)
    ∧ controllerStatus (getStationData [] "44098" badGatewayEnv 12 0 0).1 = 200 := by
  have heval : getStationData [] "44098" badGatewayEnv 12 0 0
      = ((.ok (.composed
          { id := "44098", name := some "Jeffreys Ledge, NH",
            observations := mkObservations (mkCombinedData obsRowA (some demoTrends) none),
            forecast := .errorStub "Request failed with status code 502" "AxiosError" 500 })),
         [⟨CacheKey.buoy "44098", .obs (mkCombinedData obsRowA (some demoTrends) none),
           getTimeToNextUpdate 0 0⟩],
         ⟨1, 1⟩) := by
    norm_num [getStationData, badGatewayEnv, station44098Meta, demoBuoyOracle, fetchBuoyData,
      fetchMetData, hasWaveOrWind, obsRowA, obsRowB, cacheGet_nil, cacheGet_cons,
      buoyKey_ne_waveModel, List.find?, cacheGetOrSet, forecastBlock, normalizeLon,
      getPointForecast, findModelForLocation, models, inModelBounds, pacific, atlantic, gulf,
      mkForecastField, stubOf, error502, analyzeTrends, validWave, waveTrendString,
      periodTrendString, demoTrends, demoWaveEntry, mkCombinedData, mkObservations]
  rw [heval]
  exact ⟨rfl, by decide, rfl, rfl⟩

/-- C5, amended: the forecast fetch is NOT retried — `getPointForecast` issues
exactly one HTTP GET regardless of the outcome (the configured
`request.maxRetries`/`retryDelay` are never used) — and a transient failure is
reported immediately: the envelope is returned with the forecast error stub and
HTTP status 200, with one fetcher invocation and one GET in total. -/
theorem C5_amended (cache : Cache) (stationId : String) (env : GetStationEnv) (h m s : ℤ)
    (lat lon : ℚ) (mdl : Model)
    (hcoords : env.metadata.bind (·.coordinates) = some (lon, lat))
    (hgrid : findModelForLocation lat (normalizeLon lon) = some mdl)
    (hmiss1 : cacheGet cache (CacheKey.buoy stationId) = none)
    (hmiss2 : cacheGet cache (CacheKey.waveModel lat (normalizeLon lon)) = none)
    (hnt : env.buoyTimeout = false) (hft : env.forecastTimeout = false)
    (metData : MetObs) (trends : Option Trends)
    (hmet : fetchMetData env.buoy.metRows = some (metData, trends))
    (e : JsError) (hhttp : env.forecastHttp = .error e) :
    (getPointForecast lat (normalizeLon lon) env.forecastHttp).2 = 1
    ∧ (getStationData cache stationId env h m s).2.2 = ⟨1, 1⟩
    ∧ (getStationData cache stationId env h m s).1
        = .ok (.composed
            { id := stationId, name := env.metadata.bind (·.name),
              observations := mkObservations (mkCombinedData metData trends env.buoy.spectral),
              forecast := stubOf e })
    ∧ controllerStatus (getStationData cache stationId env h m s).1 = 200 := by
  have hgp : getPointForecast lat (normalizeLon lon) env.forecastHttp = (.error e, 1) := by
    simp only [getPointForecast, hgrid, hhttp]
  refine ⟨by rw [hgp], ?_, ?_, ?_⟩ <;>
  · simp only [getStationData, fetchBuoyData, cacheGetOrSet, forecastBlock, hgp,
      mkForecastField, stubOf, controllerStatus, cacheGet_cons, buoyKey_ne_waveModel, hmiss1,
      hmiss2, hmet, hcoords, hnt, hft, Bool.false_eq_true, if_false, eq_self_iff_true, if_true]

/-- C5, witness: the amended theorem applied to station 44098 against the
all-502 forecast endpoint. -/
theorem C5_witness :
    findModelForLocation 42.8 (normalizeLon (-70.17)) = some atlantic
    ∧ (getPointForecast 42.8 (normalizeLon (-70.17)) badGatewayEnv.forecastHttp).2 = 1
    ∧ controllerStatus (getStationData [] "44098" badGatewayEnv 12 0 0).1 = 200 := by
  have hgrid : findModelForLocation 42.8 (normalizeLon (-70.17)) = some atlantic := by
    norm_num [findModelForLocation, models, inModelBounds, pacific, atlantic, gulf,
      normalizeLon, List.find?]
  have hmet : fetchMetData badGatewayEnv.buoy.metRows = some (obsRowA, some demoTrends) := by
    norm_num [fetchMetData, badGatewayEnv, demoBuoyOracle, hasWaveOrWind, obsRowA, obsRowB,
      analyzeTrends, validWave, List.find?, waveTrendString, periodTrendString, demoTrends,
      demoWaveEntry]
  have happ := C5_amended [] "44098" badGatewayEnv 12 0 0 42.8 (-70.17) atlantic rfl hgrid
    rfl rfl rfl rfl obsRowA (some demoTrends) hmet error502 rfl
  exact ⟨hgrid, happ.1, happ.2.2.2⟩

/-! ## C6 — failures are never cached -/

/-- A successful cold buoy fetch stores exactly the combined observation under
the buoy key. -/
theorem fetchBuoyData_some (cache : Cache) (buoyId : String) (o : BuoyOracle) (m s : ℤ)
    (hmiss : cacheGet cache (CacheKey.buoy buoyId) = none)
    (d : ObsData) (hs : (fetchBuoyData cache buoyId o m s).1 = some d) :
    (fetchBuoyData cache buoyId o m s).2
      = ⟨CacheKey.buoy buoyId, .obs d, getTimeToNextUpdate m s⟩ :: cache := by
  unfold fetchBuoyData at *
  cases hmet : fetchMetData o.metRows with
  | none =>
    simp only [hmiss, hmet] at hs
    simp at hs
  | some pr =>
    simp only [hmiss, hmet, cacheGetOrSet] at hs ⊢
    injection hs with hd
    rw [hd]

/-- `fetchBuoyData` either leaves the cache unchanged or prepends one
observation entry under the buoy key. -/
theorem fetchBuoyData_shape (cache : Cache) (buoyId : String) (o : BuoyOracle) (m s : ℤ) :
    (fetchBuoyData cache buoyId o m s).2 = cache
    ∨ ∃ d ttl, (fetchBuoyData cache buoyId o m s).2
        = ⟨CacheKey.buoy buoyId, .obs d, ttl⟩ :: cache := by
  unfold fetchBuoyData
  cases hmet : fetchMetData o.metRows with
  | none =>
    cases hl : cacheGet cache (CacheKey.buoy buoyId) with
    | some v => cases v <;> simp only [hl, hmet] <;> left <;> trivial
    | none => simp only [hl, hmet]; left; trivial
  | some pr =>
    cases hl : cacheGet cache (CacheKey.buoy buoyId) with
    | some v => cases v <;> simp only [hl, hmet, cacheGetOrSet] <;> left <;> trivial
    | none =>
      simp only [hl, hmet, cacheGetOrSet]
      right
      exact ⟨_, _, rfl⟩

/-- A buoy fetch that produced no data left the cache unchanged. -/
theorem fetchBuoyData_none (cache : Cache) (buoyId : String) (o : BuoyOracle) (m s : ℤ)
    (hnone : (fetchBuoyData cache buoyId o m s).1 = none) :
    (fetchBuoyData cache buoyId o m s).2 = cache := by
  unfold fetchBuoyData at *
  cases hmet : fetchMetData o.metRows with
  | none =>
    cases hl : cacheGet cache (CacheKey.buoy buoyId) with
    | some v => cases v <;> simp only [hl, hmet]
    | none => simp only [hl, hmet]
  | some pr =>
    cases hl : cacheGet cache (CacheKey.buoy buoyId) with
    | some v =>
      cases v with
      | obs d => simp only [hl]
      | fcst f => simp only [hl, hmet] at hnone; simp at hnone
      | env e => simp only [hl, hmet] at hnone; simp at hnone
    | none => simp only [hl, hmet] at hnone; simp at hnone

/-- The forecast block either leaves the cache unchanged or prepends one grouped
forecast entry under the normalized wave-model key. -/
theorem forecastBlock_shape (cache : Cache) (lat lon : ℚ) (env : GetStationEnv) (h m s : ℤ) :
    (forecastBlock cache lat lon env h m s).2.2.1 = cache
    ∨ ∃ f ttl, (forecastBlock cache lat lon env h m s).2.2.1
        = ⟨CacheKey.waveModel lat (normalizeLon lon), .fcst f, ttl⟩ :: cache := by
  unfold forecastBlock
  cases hl : cacheGet cache (CacheKey.waveModel lat (normalizeLon lon)) with
  | some v =>
    cases v with
    | fcst f => simp only [hl]; left; trivial
    | obs d =>
      simp only [hl]
      cases hft : env.forecastTimeout with
      | true => left; trivial
      | false =>
        rcases hgp : getPointForecast lat (normalizeLon lon) env.forecastHttp with ⟨res, gets⟩
        cases res with
        | error e => simp only [hgp]; left; trivial
        | ok md =>
          simp only [hgp]
          cases hfc : md.forecasts with
          | nil => simp only [hfc]; left; trivial
          | cons p ps =>
            simp only [hfc, cacheGetOrSet, hl]
            left; trivial
    | env e2 =>
      simp only [hl]
      cases hft : env.forecastTimeout with
      | true => left; trivial
      | false =>
        rcases hgp : getPointForecast lat (normalizeLon lon) env.forecastHttp with ⟨res, gets⟩
        cases res with
        | error e => simp only [hgp]; left; trivial
        | ok md =>
          simp only [hgp]
          cases hfc : md.forecasts with
          | nil => simp only [hfc]; left; trivial
          | cons p ps =>
            simp only [hfc, cacheGetOrSet, hl]
            left; trivial
  | none =>
    simp only [hl]
    cases hft : env.forecastTimeout with
    | true => left; trivial
    | false =>
      rcases hgp : getPointForecast lat (normalizeLon lon) env.forecastHttp with ⟨res, gets⟩
      cases res with
      | error e => simp only [hgp]; left; trivial
      | ok md =>
        simp only [hgp]
        cases hfc : md.forecasts with
        | nil => simp only [hfc]; left; trivial
        | cons p ps =>
          simp only [hfc, cacheGetOrSet, hl]
          right
          exact ⟨_, _, rfl⟩

/-- The forecast block never touches buoy-key entries. -/
theorem forecastBlock_preserves (cache : Cache) (lat lon : ℚ) (env : GetStationEnv)
    (h m s : ℤ) (sid : String) :
    cacheGet (forecastBlock cache lat lon env h m s).2.2.1 (CacheKey.buoy sid)
      = cacheGet cache (CacheKey.buoy sid) := by
  rcases forecastBlock_shape cache lat lon env h m s with hs | ⟨f, ttl, hs⟩
  · rw [hs]
  · rw [hs, cacheGet_cons]; simp

/-- C6: failures are never cached.  (a) In the spec-modelled `get_or_fill`, a
producer failure is propagated and leaves the cache unchanged.  (b) Every
entry of the cache after a `getStationData` call was either already present or
holds a successfully fetched observation or grouped forecast — in particular the
composed envelope, the only value that can carry an error stub, is never stored
(the buoy entry written moments earlier occupies its key).  (c) A failed
`getStationData` call leaves the cache exactly as it found it. -/
theorem C6_thm (cache : Cache) (stationId : String) (env : GetStationEnv) (h m s : ℤ) :
    (∀ k producer ttl e, cacheGet cache k = none → producer = Except.error e →
        getOrFill cache k producer ttl = (.error e, cache))
    ∧ (∀ entry, entry ∈ (getStationData cache stationId env h m s).2.1 →
        entry ∈ cache
        ∨ (∃ d, entry.value = CacheValue.obs d)
        ∨ (∃ f, entry.value = CacheValue.fcst f))
    ∧ (∀ e, (getStationData cache stationId env h m s).1 = .error e →
        (getStationData cache stationId env h m s).2.1 = cache) := by
  refine ⟨?_, ?_, ?_⟩
  · intro k producer ttl e hmiss hp
    subst hp
    simp only [getOrFill, hmiss]
  · intro entry hmem
    cases hc0 : cacheGet cache (CacheKey.buoy stationId) with
    | some v =>
      simp only [getStationData, hc0] at hmem
      exact Or.inl hmem
    | none =>
      cases hbt : env.buoyTimeout with
      | true =>
        simp only [getStationData, hc0, hbt] at hmem
        exact Or.inl hmem
      | false =>
        rcases hfb : fetchBuoyData cache stationId env.buoy m s with ⟨ob, cache1⟩
        cases ob with
        | none =>
          have hcu : cache1 = cache := by
            have h2 := fetchBuoyData_none cache stationId env.buoy m s (by rw [hfb])
            rw [hfb] at h2; exact h2
          simp only [getStationData, hc0, hbt, hfb] at hmem
          rw [hcu] at hmem
          exact Or.inl hmem
        | some d =>
          have hc1 : cache1
              = ⟨CacheKey.buoy stationId, .obs d, getTimeToNextUpdate m s⟩ :: cache := by
            have h2 := fetchBuoyData_some cache stationId env.buoy m s hc0 d (by rw [hfb])
            rw [hfb] at h2; exact h2
          simp only [getStationData, hc0, hbt, hfb] at hmem
          cases hcoords : env.metadata.bind (fun x => x.coordinates) with
          | none =>
            simp only [hcoords] at hmem
            have hget1 : cacheGet cache1 (CacheKey.buoy stationId)
                = some (CacheValue.obs d) := by
              rw [hc1, cacheGet_cons]; simp
            simp only [cacheGetOrSet, hget1] at hmem
            rw [hc1] at hmem
            rcases List.mem_cons.1 hmem with hx | hx
            · exact Or.inr (Or.inl ⟨d, by rw [hx]⟩)
            · exact Or.inl hx
          | some pair =>
            rcases pair with ⟨lon, lat⟩
            simp only [hcoords] at hmem
            have hget2 : cacheGet (forecastBlock cache1 lat lon env h m s).2.2.1
                (CacheKey.buoy stationId) = some (CacheValue.obs d) := by
              rw [forecastBlock_preserves, hc1, cacheGet_cons]; simp
            simp only [cacheGetOrSet, hget2] at hmem
            rcases forecastBlock_shape cache1 lat lon env h m s with hs | ⟨f, ttl, hs⟩
            · rw [hs, hc1] at hmem
              rcases List.mem_cons.1 hmem with hx | hx
              · exact Or.inr (Or.inl ⟨d, by rw [hx]⟩)
              · exact Or.inl hx
            · rw [hs, hc1] at hmem
              rcases List.mem_cons.1 hmem with hx | hx
              · exact Or.inr (Or.inr ⟨f, by rw [hx]⟩)
              · rcases List.mem_cons.1 hx with hy | hy
                · exact Or.inr (Or.inl ⟨d, by rw [hy]⟩)
                · exact Or.inl hy
  · intro e he
    cases hc0 : cacheGet cache (CacheKey.buoy stationId) with
    | some v =>
      simp only [getStationData, hc0] at he
      exact absurd he (by simp)
    | none =>
      cases hbt : env.buoyTimeout with
      | true =>
        simp only [getStationData, hc0, hbt]
        split_ifs with hT
        · rfl
        · exact absurd trivial hT
      | false =>
        rcases hfb : fetchBuoyData cache stationId env.buoy m s with ⟨ob, cache1⟩
        cases ob with
        | none =>
          have hcu : cache1 = cache := by
            have h2 := fetchBuoyData_none cache stationId env.buoy m s (by rw [hfb])
            rw [hfb] at h2; exact h2
          simp only [getStationData, hc0, hbt, hfb]
          exact hcu
        | some d =>
          simp only [getStationData, hc0, hbt, hfb] at he
          cases hcoords : env.metadata.bind (fun x => x.coordinates) with
          | none => simp only [hcoords] at he; simp at he
          | some pair => rcases pair with ⟨lon, lat⟩; simp only [hcoords] at he; simp at he

/-- C6, witness: a failing producer on a cold key propagates its error and
stores nothing. -/
theorem C6_witness :
    cacheGet [] (CacheKey.buoy "46042") = none
    ∧ getOrFill [] (CacheKey.buoy "46042")
        (Except.error (appError 502 "upstream failure")) 600
      = (.error (appError 502 "upstream failure"), []) := by
  exact ⟨rfl, (C6_thm [] "46042" outOfGridEnv 0 0 0).1 (CacheKey.buoy "46042")
    (Except.error (appError 502 "upstream failure")) 600 (appError 502 "upstream failure")
    rfl rfl⟩

/-! ## C9 — prefetch cycle exclusivity -/

/-- C9: from the post-startup state — `initializeData` armed startupService's
recurring prefetch timer and `startApp` then armed scheduler.js's independent
one — both timers may fire with no completion in between, reaching a state in
which TWO prefetch cycles execute concurrently; the code violates the claim's
"at most one prefetch cycle executes at any time". -/
theorem C9_thm :
    schedulerRunEvents appStartState [SchedulerEvent.startupFire, SchedulerEvent.schedulerFire]
      = some doubleRunState
    ∧ runningCycles doubleRunState = 2 := by
  exact ⟨by decide, by decide⟩

end Salty
